import Mathlib

/-!
Verification development for `notebook_utils.py`.

The module under study provides two notebook helpers:
`enable_autosave_plots`, which monkey-patches the plotting library's
`show` entry point so every displayed figure is also saved as a PNG, and
`save_dataframe_preview`, which writes the first `n` rows of a data frame
to a CSV file.  Both resolve an output directory from an explicit
argument or a module-level default captured from environment variables,
and both route through the `_ensure_dir` helper.

The embedding below models the filesystem as explicit data (directory
listings as lists of file names; the directory tree as an association
list from component paths to entries), models fallible operations with
`Except` or with explicit success flags, and models the monkey-patched
`show` function as an inductive value (`ShowFn`) together with an
operational semantics (`invoke`) that records the save attempts and the
final display call as an event trace.
-/

namespace NotebookUtils

/-- Keyword arguments of a Python call, as an association list from
keyword name to (string-modelled) value.  Python keyword dictionaries
have unique keys; the model keeps them as a list in call order. -/
abbrev Kwargs := List (String × String)

/-- Listing of an output directory: the names of the files it contains,
in creation order. -/
abbrev DirListing := List String

/-- Embeds the file-name test performed by `vis_dir.glob("*.png")` in
`show_and_save` (src/notebook_utils.py, line 52): on a POSIX filesystem
the glob pattern `*.png` matches exactly the names that end in the four
characters `.png`, case-sensitively. -/
def globPng (s : String) : Bool :=
  ".png".data.isSuffixOf s.data

/-- Embeds `len(list(vis_dir.glob("*.png")))`: the number of files of the
listing whose name matches the glob pattern `*.png`. -/
def countPng (files : DirListing) : Nat :=
  (files.filter globPng).length

/-- ASCII lowercasing of a string, character by character (the behaviour
of Python `str.lower` on ASCII file names). -/
def lowerStr (s : String) : String :=
  String.mk (s.data.map Char.toLower)

/-- Modelled from the spec: the count of files "whose name ends in the
image extension (case-insensitive)", i.e. `f.lower().endswith(".png")`.
This is the count the spec claims the wrapper uses; the live module's
`glob("*.png")` count is `countPng`. -/
def specCountPngCI (files : DirListing) : Nat :=
  (files.filter (fun s => globPng (lowerStr s))).length

/-- Embeds the Python format specifier `{idx:02d}`: decimal digits,
zero-padded on the left to a minimum width of two. -/
def pad2 (n : Nat) : String :=
  if n < 10 then "0" ++ toString n else toString n

/-- Embeds the f-string of line 56 of src/notebook_utils.py:
`f"{idx:02d}_{prefix}_{name_hint}_{ts}.png"`. -/
def mkFilename (idx : Nat) (pfx hint ts : String) : String :=
  pad2 idx ++ "_" ++ pfx ++ "_" ++ hint ++ "_" ++ ts ++ ".png"

/-- Embeds `kwargs.pop(k, d)`: returns the value stored under key `k`
(or the default `d` when absent) together with the remaining keyword
arguments, from which every entry keyed `k` has been removed. -/
def popKwarg (kw : Kwargs) (k d : String) : String × Kwargs :=
  match kw.find? (fun q => decide (q.1 = k)) with
  | some q => (q.2, kw.filter (fun r => decide (r.1 ≠ k)))
  | none => (d, kw)

/-- Per-invocation environment of the wrapped show function: the
timestamp `time.strftime("%Y%m%d-%H%M%S")` computed at call time,
whether listing the output directory succeeds (the `try` of lines
51-54), and whether `fig.savefig` succeeds (the `try` of lines 57-61). -/
structure ShowCtx where
  ts : String
  listable : Bool
  saveOk : Bool

/-- The process-wide `matplotlib.pyplot.show` slot.  `base f` is an
unwrapped show function whose display behaviour is the abstract `f`
(from positional and keyword arguments to a result); `wrap pfx inner`
is the closure `show_and_save` installed by `enable_autosave_plots`
with prefix `pfx` around the previously installed function `inner`. -/
inductive ShowFn where
  | base (f : List String → Kwargs → String)
  | wrap (pfx : String) (inner : ShowFn)

/-- Observable events of one invocation of the installed show function:
a successful figure save (the `print(f"[saved plot] ...")` branch), a
caught save failure (the `print(f"[warn] ...")` branch), and the final
call of the original, unwrapped display function. -/
inductive ShowEvent where
  | saved (path : String)
  | warned (path : String)
  | displayed (args : List String) (kwargs : Kwargs)
deriving DecidableEq

/-- Result of one invocation of the installed show function: the output
directory listing afterwards, the event trace, and the value returned
(the value of the innermost, original show function, forwarded out by
every wrapper via `return orig_show(*args, **kwargs)`). -/
structure InvokeOut where
  dir : DirListing
  events : List ShowEvent
  result : String
deriving DecidableEq

/-- Operational semantics of the installed show function, embedding
`show_and_save` (src/notebook_utils.py, lines 48-62).  A wrapper counts
the `*.png` files of the directory (0 when the listing raises), pops
`name_hint` (default `"plot"`) from the keyword arguments, builds the
file name, attempts the save — appending the file on success, only
warning on failure — and then calls the previously installed function
with the remaining arguments, returning its result. -/
def invoke (ctx : ShowCtx) : ShowFn → DirListing → List String → Kwargs → InvokeOut
  | .base f, dir, args, kw => ⟨dir, [.displayed args kw], f args kw⟩
  | .wrap pfx inner, dir, args, kw =>
    let idx := if ctx.listable then countPng dir else 0
    let pk := popKwarg kw "name_hint" "plot"
    let path := mkFilename idx pfx pk.1 ctx.ts
    let dir' := if ctx.saveOk then dir ++ [path] else dir
    let ev := if ctx.saveOk then ShowEvent.saved path else ShowEvent.warned path
    let out := invoke ctx inner dir' args pk.2
    ⟨out.dir, ev :: out.events, out.result⟩

/-- Embeds the assignment `plt.show = show_and_save` of line 64: the new
wrapper closes over the prefix and over whatever show function was
installed before. -/
def installShow (pfx : String) (cur : ShowFn) : ShowFn :=
  .wrap pfx cur

/-- The show function installed after a sequence of
`enable_autosave_plots` calls with the given prefixes (innermost call
first in the nesting, i.e. the list is outermost-first). -/
def installShowList : List String → ShowFn → ShowFn
  | [], f => f
  | p :: ps, f => installShow p (installShowList ps f)

/-- Whether an event is a `fig.savefig` attempt: `saved` on success,
`warned` on caught failure. -/
def isAttempt : ShowEvent → Bool
  | .saved _ => true
  | .warned _ => true
  | .displayed _ _ => false

/-- Whether an event is an invocation of the original (base) display
function. -/
def isDisplay : ShowEvent → Bool
  | .displayed _ _ => true
  | .saved _ => false
  | .warned _ => false

/-- Number of save attempts recorded in a trace: every invocation of a
wrapper attempts exactly one `fig.savefig`. -/
def countAttempts (evs : List ShowEvent) : Nat :=
  (evs.filter isAttempt).length

/-- Number of invocations of the original (base) display function
recorded in a trace. -/
def countDisplayed (evs : List ShowEvent) : Nat :=
  (evs.filter isDisplay).length

/-- The paths of the files actually saved during a trace, in order. -/
def savedPaths (evs : List ShowEvent) : List String :=
  evs.filterMap (fun e =>
    match e with
    | .saved p => some p
    | _ => none)

/-- Runs a sequence of calls of a single wrapper `wrap pfx (base f)`,
one call per `(name_hint, timestamp)` pair, with the directory listable
and every save succeeding, threading the directory listing through and
concatenating the event traces. -/
def runShows (f : List String → Kwargs → String) (pfx : String) :
    DirListing → List (String × String) → DirListing × List ShowEvent
  | dir, [] => (dir, [])
  | dir, c :: rest =>
    let out := invoke ⟨c.2, true, true⟩ (.wrap pfx (.base f)) dir [] [("name_hint", c.1)]
    let r := runShows f pfx out.dir rest
    (r.1, out.events ++ r.2)

/-- A filesystem entry: a directory or a regular file. -/
inductive FsEntry where
  | dir : FsEntry
  | file : FsEntry
deriving DecidableEq

/-- The filesystem tree, as an association list from component paths
(e.g. `["results", "visualizations"]` for `results/visualizations`) to
entries.  Later entries shadow nothing: `mkdir_parents` only prepends a
path that is not yet present. -/
abbrev Fs := List (List String × FsEntry)

/-- Entry stored at a component path, if any. -/
def lookupFs (fs : Fs) (p : List String) : Option FsEntry :=
  (fs.find? (fun e => decide (e.1 = p))).map (fun e => e.2)

/-- The non-empty component prefixes of a path, shortest first: the
ancestor directories followed by the path itself.  For
`["results", "visualizations"]` this is `[["results"],
["results", "visualizations"]]`. -/
def ancestors (p : List String) : List (List String) :=
  (List.range p.length).map (fun i => p.take (i + 1))

/-- One directory-creation step per component prefix, shortest first,
embedding `Path.mkdir(parents=True, exist_ok=True)`: an existing
directory is left alone (`exist_ok=True`, and parents are created only
when missing), a component that exists as a regular file raises
(`FileExistsError` / `NotADirectoryError`, modelled as `.error ()`),
and a missing component is created as a directory. -/
def mkdir_parents : Fs → List (List String) → Except Unit Fs
  | fs, [] => .ok fs
  | fs, q :: rest =>
    match lookupFs fs q with
    | some .dir => mkdir_parents fs rest
    | some .file => .error ()
    | none => mkdir_parents ((q, .dir) :: fs) rest

/-- Embeds `_ensure_dir` (src/notebook_utils.py, lines 25-28):
`Path(p).mkdir(parents=True, exist_ok=True)` creates every missing
component prefix of `p` as a directory and raises only when a component
already exists as a non-directory. -/
def _ensure_dir (fs : Fs) (p : List String) : Except Unit Fs :=
  mkdir_parents fs (ancestors p)

/-- Splits a path string into its `/`-separated components,
accumulating the characters of the current component in reverse. -/
def splitSlashAux : List Char → List Char → List String
  | [], acc => [String.mk acc.reverse]
  | c :: cs, acc =>
    if c = '/' then String.mk acc.reverse :: splitSlashAux cs []
    else splitSlashAux cs (c :: acc)

/-- Component decomposition of a (normalised, relative) path string:
`splitSlash "results/artifacts" = ["results", "artifacts"]`.  This is
how `Path(p)` parses the directory strings the module handles. -/
def splitSlash (s : String) : List String :=
  splitSlashAux s.data []

/-- Embeds the Python truthiness test `output_dir or DEFAULT` used at
lines 45 and 75: `None` and the empty string are falsy and select the
default; any other string is used as given. -/
def orDefault (arg : Option String) (d : String) : String :=
  match arg with
  | none => d
  | some s => if s = "" then d else s

/-- Embeds line 22, evaluated once at module load:
`Path(os.environ.get("NBX_VIS_DIR", "results/visualizations"))`.
The environment is a partial map from variable names to values. -/
def DEFAULT_VIS_DIR (env : String → Option String) : String :=
  (env "NBX_VIS_DIR").getD "results/visualizations"

/-- Embeds line 23, evaluated once at module load:
`Path(os.environ.get("NBX_ARTIFACTS_DIR", "results/artifacts"))`. -/
def DEFAULT_ARTIFACTS_DIR (env : String → Option String) : String :=
  (env "NBX_ARTIFACTS_DIR").getD "results/artifacts"

/-- Embeds `enable_autosave_plots` (src/notebook_utils.py, lines
30-65): resolve the output directory (`output_dir or DEFAULT_VIS_DIR`),
ensure it exists (errors propagate), and install a new wrapper around
the currently installed show function.  Returns the updated filesystem,
the newly installed show function, and the resolved directory named by
the confirmation message of line 65. -/
def enable_autosave_plots (fs : Fs) (pfx : String) (output_dir : Option String)
    (default_vis : String) (cur : ShowFn) : Except Unit (Fs × ShowFn × String) :=
  let vis_dir := orDefault output_dir default_vis
  match _ensure_dir fs (splitSlash vis_dir) with
  | .error e => .error e
  | .ok fs' => .ok (fs', installShow pfx cur, vis_dir)

/-- An in-memory tabular dataset: column names and rows of cells
(cells modelled as their string serialisations). -/
structure DataFrame where
  cols : List String
  rows : List (List String)

/-- Embeds `df.head(n)` for `n ≥ 0`: the first `n` rows (all of them
when the frame has fewer). -/
def DataFrame.head (df : DataFrame) (n : Nat) : DataFrame :=
  ⟨df.cols, df.rows.take n⟩

/-- Comma-joined CSV field list of one row. -/
def joinComma : List String → String
  | [] => ""
  | [c] => c
  | c :: cs => c ++ "," ++ joinComma cs

/-- Embeds `df.to_csv(path, index=False)` content-wise: the header row
followed by the data rows, with no index column prepended. -/
def toCsv (df : DataFrame) : List String :=
  joinComma df.cols :: df.rows.map joinComma

/-- Outcome of `save_dataframe_preview`: the returned path string, the
CSV lines written (`none` when the write raised and was caught), and
whether the `[warn]` diagnostic was printed. -/
structure PreviewOut where
  path : String
  written : Option (List String)
  warned : Bool
deriving DecidableEq

/-- Embeds `save_dataframe_preview` (src/notebook_utils.py, lines
67-82): resolve the output directory (`output_dir or
DEFAULT_ARTIFACTS_DIR`), ensure it exists (errors propagate), build
`<art_dir>/<name>_preview.csv`, attempt the write — `writeOk` says
whether `df.head(n).to_csv(...)` succeeds — catching any failure with a
warning, and return the path string in either case. -/
def save_dataframe_preview (fs : Fs) (df : DataFrame) (name : String) (n : Nat)
    (output_dir : Option String) (default_art : String) (writeOk : Bool) :
    Except Unit (Fs × PreviewOut) :=
  let art_dir := orDefault output_dir default_art
  match _ensure_dir fs (splitSlash art_dir) with
  | .error e => .error e
  | .ok fs' =>
    let out_csv := art_dir ++ "/" ++ name ++ "_preview.csv"
    if writeOk then .ok (fs', ⟨out_csv, some (toCsv (df.head n)), false⟩)
    else .ok (fs', ⟨out_csv, none, true⟩)

/-! ### Helper lemmas -/

/-- Appending the literal extension makes a name match the glob. -/
theorem globPng_append (s : String) : globPng (s ++ ".png") = true := by
  unfold globPng
  rw [String.data_append]
  exact List.isSuffixOf_iff_suffix.mpr (List.suffix_append _ _)

/-- Every file name the wrapper builds matches `*.png`. -/
theorem globPng_mkFilename (idx : Nat) (pfx hint ts : String) :
    globPng (mkFilename idx pfx hint ts) = true :=
  globPng_append _

/-- Adding a matching file to the listing increments the count. -/
theorem countPng_append (dir : DirListing) (x : String) (hx : globPng x = true) :
    countPng (dir ++ [x]) = countPng dir + 1 := by
  unfold countPng
  rw [List.filter_append, List.length_append]
  simp [hx]

/-- The keyword arguments left after `kwargs.pop(k, d)` are exactly the
original ones minus every entry keyed `k`. -/
theorem popKwarg_snd (kw : Kwargs) (k d : String) :
    (popKwarg kw k d).2 = kw.filter (fun r => decide (r.1 ≠ k)) := by
  unfold popKwarg
  cases h : kw.find? (fun q => decide (q.1 = k)) with
  | some q => simp
  | none =>
    simp only
    symm
    rw [List.filter_eq_self]
    intro a ha
    have := List.find?_eq_none.mp h a ha
    simpa using this

/-- The result forwarded out of an invocation does not depend on the
directory listing (only the saved file names do). -/
theorem invoke_result_ignores_dir (ctx : ShowCtx) (fn : ShowFn) (args : List String) :
    ∀ dir dir' kw, (invoke ctx fn dir args kw).result = (invoke ctx fn dir' args kw).result := by
  induction fn with
  | base f => intro dir dir' kw; rfl
  | wrap pfx inner ih =>
    intro dir dir' kw
    simp only [invoke]
    exact ih _ _ _

/-- Prepending one event to a trace adjusts the attempt count by
whether it is an attempt. -/
theorem countAttempts_cons (e : ShowEvent) (evs : List ShowEvent) :
    countAttempts (e :: evs) = (if isAttempt e then 1 else 0) + countAttempts evs := by
  unfold countAttempts
  rw [List.filter_cons]
  by_cases h : isAttempt e <;> simp [h, Nat.add_comm]

/-- Prepending one event to a trace adjusts the display count by
whether it is a display. -/
theorem countDisplayed_cons (e : ShowEvent) (evs : List ShowEvent) :
    countDisplayed (e :: evs) = (if isDisplay e then 1 else 0) + countDisplayed evs := by
  unfold countDisplayed
  rw [List.filter_cons]
  by_cases h : isDisplay e <;> simp [h, Nat.add_comm]

/-- Each nesting level contributes exactly one save attempt, and the
base display function runs exactly once, whatever the directory and
keyword state. -/
theorem invoke_counts (ctx : ShowCtx) (pfxs : List String)
    (f : List String → Kwargs → String) (args : List String) :
    ∀ dir kw,
      countAttempts (invoke ctx (installShowList pfxs (.base f)) dir args kw).events
          = pfxs.length ∧
      countDisplayed (invoke ctx (installShowList pfxs (.base f)) dir args kw).events = 1 := by
  induction pfxs with
  | nil =>
    intro dir kw
    simp [installShowList, invoke, countAttempts, countDisplayed, isAttempt, isDisplay]
  | cons p ps ih =>
    intro dir kw
    simp only [installShowList, installShow, invoke]
    constructor
    · rw [countAttempts_cons, (ih _ _).1]
      cases hs : ctx.saveOk <;> simp [hs, isAttempt, Nat.add_comm]
    · rw [countDisplayed_cons, (ih _ _).2]
      cases hs : ctx.saveOk <;> simp [hs, isDisplay]

/-- Entry lookup on a one-step-extended filesystem. -/
theorem lookupFs_cons (a : List String × FsEntry) (fs : Fs) (q : List String) :
    lookupFs (a :: fs) q = if a.1 = q then some a.2 else lookupFs fs q := by
  unfold lookupFs
  by_cases h : a.1 = q <;> simp [List.find?, h]

/-- `mkdir_parents` never removes or changes an existing entry. -/
theorem mkdir_parents_preserves {fs fs' : Fs} {l : List (List String)}
    (h : mkdir_parents fs l = .ok fs') {q : List String} {e : FsEntry}
    (hq : lookupFs fs q = some e) : lookupFs fs' q = some e := by
  induction l generalizing fs with
  | nil =>
    simp only [mkdir_parents] at h
    cases h
    exact hq
  | cons a rest ih =>
    simp only [mkdir_parents] at h
    cases ha : lookupFs fs a with
    | some e' =>
      cases e' with
      | dir => rw [ha] at h; exact ih h hq
      | file => rw [ha] at h; cases h
    | none =>
      rw [ha] at h
      refine ih h ?_
      rw [lookupFs_cons]
      by_cases hc : a = q
      · subst hc; rw [ha] at hq; cases hq
      · simp [hc, hq]

/-- Every path processed by a successful `mkdir_parents` run exists as
a directory afterwards. -/
theorem mkdir_parents_creates {fs fs' : Fs} {l : List (List String)}
    (h : mkdir_parents fs l = .ok fs') : ∀ q ∈ l, lookupFs fs' q = some FsEntry.dir := by
  induction l generalizing fs with
  | nil => intro q hq; cases hq
  | cons a rest ih =>
    intro q hq
    simp only [mkdir_parents] at h
    cases ha : lookupFs fs a with
    | some e' =>
      cases e' with
      | dir =>
        rw [ha] at h
        rcases List.mem_cons.mp hq with rfl | hq'
        · exact mkdir_parents_preserves h ha
        · exact ih h q hq'
      | file => rw [ha] at h; cases h
    | none =>
      rw [ha] at h
      rcases List.mem_cons.mp hq with rfl | hq'
      · exact mkdir_parents_preserves h (by rw [lookupFs_cons]; simp)
      · exact ih h q hq'

/-- `mkdir_parents` is a no-op when everything it would create is
already a directory. -/
theorem mkdir_parents_noop {fs : Fs} {l : List (List String)}
    (h : ∀ q ∈ l, lookupFs fs q = some FsEntry.dir) : mkdir_parents fs l = .ok fs := by
  induction l with
  | nil => rfl
  | cons a rest ih =>
    simp only [mkdir_parents]
    rw [h a (by simp)]
    exact ih (fun q hq => h q (by simp [hq]))

/-- A non-empty path occurs among its own component prefixes. -/
theorem mem_ancestors_self {p : List String} (hp : p ≠ []) : p ∈ ancestors p := by
  unfold ancestors
  refine List.mem_map.mpr ⟨p.length - 1, ?_, ?_⟩
  · have := List.length_pos.mpr hp
    simp [List.mem_range]
    omega
  · have h1 : p.length - 1 + 1 = p.length := Nat.sub_add_cancel (List.length_pos.mpr hp)
    rw [h1, List.take_length]

/-- Saved-path extraction distributes over trace concatenation. -/
theorem savedPaths_append (l₁ l₂ : List ShowEvent) :
    savedPaths (l₁ ++ l₂) = savedPaths l₁ ++ savedPaths l₂ := by
  simp [savedPaths, List.filterMap_append]

/-- The saved file names produced by a run of successful saves carry
consecutive indices starting at the current `*.png` count. -/
theorem runShows_savedPaths (f : List String → Kwargs → String) (pfx : String)
    (calls : List (String × String)) :
    ∀ dir, savedPaths (runShows f pfx dir calls).2
      = (List.enumFrom (countPng dir) calls).map
          (fun ic => mkFilename ic.1 pfx ic.2.1 ic.2.2) := by
  induction calls with
  | nil => intro dir; simp [runShows, savedPaths, List.enumFrom]
  | cons c rest ih =>
    intro dir
    have hinv : invoke ⟨c.2, true, true⟩ (.wrap pfx (.base f)) dir [] [("name_hint", c.1)]
        = ⟨dir ++ [mkFilename (countPng dir) pfx c.1 c.2],
           [.saved (mkFilename (countPng dir) pfx c.1 c.2), .displayed [] []],
           f [] []⟩ := rfl
    simp only [runShows, hinv]
    rw [savedPaths_append]
    have h2 := ih (dir ++ [mkFilename (countPng dir) pfx c.1 c.2])
    rw [countPng_append _ _ (globPng_mkFilename ..)] at h2
    rw [h2]
    simp [savedPaths, List.enumFrom]

/-! ### Claim theorems -/

/-- C1: for every sequence of N successful figure saves through the
wrapped show function into an initially empty output directory with no
interleaving deletions, the files produced are named
`{index:02d}_{prefix}_{name_hint}_{timestamp}.png` and the sequence
indices are exactly 0, 1, ..., N-1 in call order. -/
theorem C1_successful_saves_number_sequentially
    (f : List String → Kwargs → String) (pfx : String)
    (calls : List (String × String)) :
    savedPaths (runShows f pfx [] calls).2
      = calls.enum.map (fun ic => mkFilename ic.1 pfx ic.2.1 ic.2.2) := by
  have h := runShows_savedPaths f pfx calls []
  have h0 : countPng [] = 0 := rfl
  rw [h0] at h
  exact h

/-- C2: every invocation of the wrapped show function forwards all
original positional arguments and all keyword arguments except the
consumed `name_hint` to the previously installed show function and
returns that function's result, whether or not the save step succeeded
(`ctx.saveOk` and `ctx.listable` are universally quantified); the save
step never propagates an exception (the semantics is total and the
failure branch only records a warning). -/
theorem C2_wrapper_forwards_and_returns (ctx : ShowCtx) (pfx : String)
    (inner : ShowFn) (f : List String → Kwargs → String)
    (dir : DirListing) (args : List String) (kw : Kwargs) :
    (invoke ctx (.wrap pfx inner) dir args kw).result
        = (invoke ctx inner dir args
            (kw.filter (fun r => decide (r.1 ≠ "name_hint")))).result ∧
    (invoke ctx (.wrap pfx (.base f)) dir args kw).result
        = f args (kw.filter (fun r => decide (r.1 ≠ "name_hint"))) := by
  constructor
  · simp only [invoke]
    rw [popKwarg_snd]
    exact invoke_result_ignores_dir ctx inner args _ _ _
  · simp only [invoke]
    rw [popKwarg_snd]

/-- C3: whenever `save_dataframe_preview` returns (i.e. the directory
setup did not raise), the returned path is
`<resolved output_dir>/<name>_preview.csv`, also when the CSV write
failed; a write failure is caught, recorded as a warning, and nothing
is re-raised. -/
theorem C3_preview_returns_path_always (fs fs' : Fs) (df : DataFrame)
    (nm : String) (n : Nat) (arg : Option String) (d : String) (w : Bool)
    (out : PreviewOut)
    (h : save_dataframe_preview fs df nm n arg d w = .ok (fs', out)) :
    out.path = orDefault arg d ++ "/" ++ nm ++ "_preview.csv" ∧
    (w = false → out.written = none ∧ out.warned = true) := by
  simp only [save_dataframe_preview] at h
  cases he : _ensure_dir fs (splitSlash (orDefault arg d)) with
  | error e => rw [he] at h; cases h
  | ok g =>
    rw [he] at h
    cases w with
    | true =>
      simp only [if_true] at h
      cases h
      exact ⟨rfl, fun hf => by cases hf⟩
    | false =>
      simp only [Bool.false_eq_true, if_false] at h
      cases h
      exact ⟨rfl, fun _ => ⟨rfl, rfl⟩⟩

/-- Witness for C3 at a concrete failing write: an empty filesystem,
a one-row frame, default directory `results/artifacts`, write failure. -/
theorem C3_preview_returns_path_always_witness :
    (PreviewOut.mk "results/artifacts/sample_preview.csv" none true).path
        = orDefault none "results/artifacts" ++ "/" ++ "sample" ++ "_preview.csv" ∧
    (false = false →
      (PreviewOut.mk "results/artifacts/sample_preview.csv" none true).written = none ∧
      (PreviewOut.mk "results/artifacts/sample_preview.csv" none true).warned = true) :=
  C3_preview_returns_path_always [] _ ⟨["a"], [["1"]]⟩ "sample" 20 none
    "results/artifacts" false _ rfl

/-- C4 counterexample: the claim says the next sequence index equals
the CASE-INSENSITIVE count of image files, so in a directory containing
only `X.PNG` it would be 1; the wrapper of the live module counts with
`glob("*.png")`, sees 0 matches, and uses index 0. -/
theorem C4_counterexample_case_sensitivity :
    countPng ["X.PNG"] ≠ specCountPngCI ["X.PNG"] ∧
    specCountPngCI ["X.PNG"] = 1 ∧
    (invoke ⟨"20250101-120000", true, true⟩
        (.wrap "fig" (.base fun _ _ => "")) ["X.PNG"] [] []).events.head?
      = some (.saved (mkFilename 0 "fig" "plot" "20250101-120000")) := by
  refine ⟨by decide, by decide, rfl⟩

/-- C4 (amended): on each invocation of the wrapped show function the
next sequence index equals the number of files in the output directory
whose name ends in `.png` compared CASE-SENSITIVELY (the `glob("*.png")`
match: `x.png` counts, `X.PNG` does not), and if the directory cannot be
listed the count is taken as 0 rather than failing. -/
theorem C4_index_is_case_sensitive_png_count (ts : String) (sOk : Bool)
    (pfx : String) (f : List String → Kwargs → String)
    (dir : DirListing) (args : List String) (kw : Kwargs) :
    globPng "x.png" = true ∧ globPng "X.PNG" = false ∧
    (invoke ⟨ts, true, sOk⟩ (.wrap pfx (.base f)) dir args kw).events.head?
      = some ((if sOk then ShowEvent.saved else ShowEvent.warned)
          (mkFilename (countPng dir) pfx (popKwarg kw "name_hint" "plot").1 ts)) ∧
    (invoke ⟨ts, false, sOk⟩ (.wrap pfx (.base f)) dir args kw).events.head?
      = some ((if sOk then ShowEvent.saved else ShowEvent.warned)
          (mkFilename 0 pfx (popKwarg kw "name_hint" "plot").1 ts)) := by
  refine ⟨by decide, by decide, ?_, ?_⟩ <;>
    cases sOk <;> simp [invoke]

/-- C5: wrappers compose rather than replace: `enable_autosave_plots`
always installs `installShow pfx` around the currently installed show
function, and invoking a stack of k wrappers around the original
display function performs exactly k save attempts and calls the
original display exactly once. -/
theorem C5_wrappers_nest (ctx : ShowCtx) (pfxs : List String)
    (f : List String → Kwargs → String) (dir : DirListing)
    (args : List String) (kw : Kwargs) (fs : Fs) (pfx : String)
    (arg : Option String) (d : String) (cur : ShowFn) :
    countAttempts (invoke ctx (installShowList pfxs (.base f)) dir args kw).events
        = pfxs.length ∧
    countDisplayed (invoke ctx (installShowList pfxs (.base f)) dir args kw).events = 1 ∧
    (enable_autosave_plots fs pfx arg d cur).map (fun r => r.2.1)
        = (_ensure_dir fs (splitSlash (orDefault arg d))).map
            (fun _ => installShow pfx cur) := by
  refine ⟨(invoke_counts ctx pfxs f args dir kw).1,
    (invoke_counts ctx pfxs f args dir kw).2, ?_⟩
  simp only [enable_autosave_plots]
  cases he : _ensure_dir fs (splitSlash (orDefault arg d)) <;> simp [he, Except.map]

/-- C6: when `_ensure_dir` returns, the requested (non-empty) path and
all its ancestor directories exist as directories, and the call is
idempotent: a second call on the resulting filesystem changes nothing
and raises nothing. -/
theorem C6_ensure_dir_creates_and_idempotent (fs fs' : Fs) (p : List String)
    (h : _ensure_dir fs p = .ok fs') :
    (∀ q ∈ ancestors p, lookupFs fs' q = some FsEntry.dir) ∧
    (p ≠ [] → lookupFs fs' p = some FsEntry.dir) ∧
    _ensure_dir fs' p = .ok fs' := by
  have hc := mkdir_parents_creates h
  exact ⟨hc, fun hp => hc p (mem_ancestors_self hp), mkdir_parents_noop hc⟩

/-- Witness for C6: creating `results/visualizations` in an empty
filesystem creates both components, and the call is idempotent. -/
theorem C6_ensure_dir_creates_and_idempotent_witness :
    (∀ q ∈ ancestors ["results", "visualizations"],
        lookupFs [(["results", "visualizations"], FsEntry.dir), (["results"], FsEntry.dir)] q
          = some FsEntry.dir) ∧
    (["results", "visualizations"] ≠ ([] : List String) →
        lookupFs [(["results", "visualizations"], FsEntry.dir), (["results"], FsEntry.dir)]
            ["results", "visualizations"] = some FsEntry.dir) ∧
    _ensure_dir [(["results", "visualizations"], FsEntry.dir), (["results"], FsEntry.dir)]
        ["results", "visualizations"]
      = .ok [(["results", "visualizations"], FsEntry.dir), (["results"], FsEntry.dir)] :=
  C6_ensure_dir_creates_and_idempotent [] _ ["results", "visualizations"] rfl

/-- C7: the default output directories are the environment variables
`NBX_VIS_DIR` / `NBX_ARTIFACTS_DIR` captured at module load, with
fallbacks `results/visualizations` / `results/artifacts` when unset,
and each public operation resolves its directory from the explicit
argument when given (non-empty) and from the captured default
otherwise. -/
theorem C7_env_defaults_and_resolution (env env' : String → Option String)
    (v a s : String) (fs : Fs) (pfx : String) (cur : ShowFn)
    (df : DataFrame) (nm : String) (n : Nat) (w : Bool)
    (h1 : env "NBX_VIS_DIR" = some v) (h2 : env "NBX_ARTIFACTS_DIR" = some a)
    (h3 : env' "NBX_VIS_DIR" = none) (h4 : env' "NBX_ARTIFACTS_DIR" = none)
    (h5 : s ≠ "") :
    DEFAULT_VIS_DIR env = v ∧ DEFAULT_ARTIFACTS_DIR env = a ∧
    DEFAULT_VIS_DIR env' = "results/visualizations" ∧
    DEFAULT_ARTIFACTS_DIR env' = "results/artifacts" ∧
    enable_autosave_plots fs pfx (some s) (DEFAULT_VIS_DIR env) cur
      = (_ensure_dir fs (splitSlash s)).map (fun g => (g, installShow pfx cur, s)) ∧
    enable_autosave_plots fs pfx none (DEFAULT_VIS_DIR env) cur
      = (_ensure_dir fs (splitSlash v)).map (fun g => (g, installShow pfx cur, v)) ∧
    save_dataframe_preview fs df nm n none (DEFAULT_ARTIFACTS_DIR env) w
      = (_ensure_dir fs (splitSlash a)).map (fun g =>
          (g, ⟨a ++ "/" ++ nm ++ "_preview.csv",
               if w then some (toCsv (df.head n)) else none, !w⟩)) ∧
    save_dataframe_preview fs df nm n (some s) (DEFAULT_ARTIFACTS_DIR env) w
      = (_ensure_dir fs (splitSlash s)).map (fun g =>
          (g, ⟨s ++ "/" ++ nm ++ "_preview.csv",
               if w then some (toCsv (df.head n)) else none, !w⟩)) := by
  have hv : DEFAULT_VIS_DIR env = v := by simp [DEFAULT_VIS_DIR, h1]
  have ha : DEFAULT_ARTIFACTS_DIR env = a := by simp [DEFAULT_ARTIFACTS_DIR, h2]
  refine ⟨hv, ha, by simp [DEFAULT_VIS_DIR, h3], by simp [DEFAULT_ARTIFACTS_DIR, h4],
    ?_, ?_, ?_, ?_⟩
  · simp only [enable_autosave_plots, orDefault, if_neg h5]
    cases he : _ensure_dir fs (splitSlash s) <;> simp [he, Except.map]
  · simp only [enable_autosave_plots, orDefault, hv]
    cases he : _ensure_dir fs (splitSlash v) <;> simp [he, Except.map]
  · simp only [save_dataframe_preview, orDefault, ha]
    cases he : _ensure_dir fs (splitSlash a) <;> cases w <;> simp [he, Except.map]
  · simp only [save_dataframe_preview, orDefault, if_neg h5]
    cases he : _ensure_dir fs (splitSlash s) <;> cases w <;> simp [he, Except.map]

/-- Witness for C7 at a concrete environment pair: one with both
variables set (`vdir`, `adir`), one with both unset, and an explicit
non-empty directory argument `exp`. -/
theorem C7_env_defaults_and_resolution_witness :
    DEFAULT_VIS_DIR (fun k => if k = "NBX_VIS_DIR" then some "vdir"
        else if k = "NBX_ARTIFACTS_DIR" then some "adir" else none) = "vdir" ∧
    DEFAULT_ARTIFACTS_DIR (fun k => if k = "NBX_VIS_DIR" then some "vdir"
        else if k = "NBX_ARTIFACTS_DIR" then some "adir" else none) = "adir" ∧
    DEFAULT_VIS_DIR (fun _ => none) = "results/visualizations" ∧
    DEFAULT_ARTIFACTS_DIR (fun _ => none) = "results/artifacts" ∧
    enable_autosave_plots [] "fig" (some "exp")
        (DEFAULT_VIS_DIR (fun k => if k = "NBX_VIS_DIR" then some "vdir"
          else if k = "NBX_ARTIFACTS_DIR" then some "adir" else none))
        (.base fun _ _ => "")
      = (_ensure_dir [] (splitSlash "exp")).map
          (fun g => (g, installShow "fig" (.base fun _ _ => ""), "exp")) ∧
    enable_autosave_plots [] "fig" none
        (DEFAULT_VIS_DIR (fun k => if k = "NBX_VIS_DIR" then some "vdir"
          else if k = "NBX_ARTIFACTS_DIR" then some "adir" else none))
        (.base fun _ _ => "")
      = (_ensure_dir [] (splitSlash "vdir")).map
          (fun g => (g, installShow "fig" (.base fun _ _ => ""), "vdir")) ∧
    save_dataframe_preview [] ⟨["a"], [["1"]]⟩ "t" 20 none
        (DEFAULT_ARTIFACTS_DIR (fun k => if k = "NBX_VIS_DIR" then some "vdir"
          else if k = "NBX_ARTIFACTS_DIR" then some "adir" else none)) false
      = (_ensure_dir [] (splitSlash "adir")).map (fun g =>
          (g, ⟨"adir" ++ "/" ++ "t" ++ "_preview.csv",
               if false then some (toCsv (DataFrame.head ⟨["a"], [["1"]]⟩ 20)) else none,
               !false⟩)) ∧
    save_dataframe_preview [] ⟨["a"], [["1"]]⟩ "t" 20 (some "exp")
        (DEFAULT_ARTIFACTS_DIR (fun k => if k = "NBX_VIS_DIR" then some "vdir"
          else if k = "NBX_ARTIFACTS_DIR" then some "adir" else none)) false
      = (_ensure_dir [] (splitSlash "exp")).map (fun g =>
          (g, ⟨"exp" ++ "/" ++ "t" ++ "_preview.csv",
               if false then some (toCsv (DataFrame.head ⟨["a"], [["1"]]⟩ 20)) else none,
               !false⟩)) :=
  C7_env_defaults_and_resolution
    (fun k => if k = "NBX_VIS_DIR" then some "vdir"
      else if k = "NBX_ARTIFACTS_DIR" then some "adir" else none)
    (fun _ => none) "vdir" "adir" "exp" [] "fig" (.base fun _ _ => "")
    ⟨["a"], [["1"]]⟩ "t" 20 false rfl rfl rfl rfl (by decide)

/-- C8: for a data frame with fewer than `n` rows,
`save_dataframe_preview` succeeds and writes all of its rows (header
plus every data row, no index column) to the preview CSV. -/
theorem C8_short_frame_writes_all_rows (fs : Fs) (df : DataFrame) (nm : String)
    (n : Nat) (arg : Option String) (d : String)
    (hrows : df.rows.length < n) :
    save_dataframe_preview fs df nm n arg d true
      = (_ensure_dir fs (splitSlash (orDefault arg d))).map
          (fun g => (g, ⟨orDefault arg d ++ "/" ++ nm ++ "_preview.csv",
            some (toCsv df), false⟩)) := by
  have hdf : df.head n = df := by
    cases df with
    | mk cols rows => simp [DataFrame.head, List.take_of_length_le (Nat.le_of_lt hrows)]
  simp only [save_dataframe_preview, hdf]
  cases he : _ensure_dir fs (splitSlash (orDefault arg d)) <;> simp [he, Except.map]

/-- Witness for C8: a two-row frame previewed with `n = 20` writes both
rows. -/
theorem C8_short_frame_writes_all_rows_witness :
    save_dataframe_preview [] ⟨["a", "b"], [["1", "2"], ["3", "4"]]⟩ "sample" 20 none
        "results/artifacts" true
      = (_ensure_dir [] (splitSlash (orDefault none "results/artifacts"))).map
          (fun g => (g, ⟨orDefault none "results/artifacts" ++ "/" ++ "sample"
              ++ "_preview.csv",
            some (toCsv ⟨["a", "b"], [["1", "2"], ["3", "4"]]⟩), false⟩)) :=
  C8_short_frame_writes_all_rows [] _ "sample" 20 none "results/artifacts" (by decide)

/-- C9: passing the empty string as the explicit `output_dir` is
treated exactly like passing none at all, for both public operations:
Python's `output_dir or DEFAULT` takes the default on every falsy
argument. -/
theorem C9_empty_output_dir_falls_back (fs : Fs) (pfx d : String) (cur : ShowFn)
    (df : DataFrame) (nm : String) (n : Nat) (w : Bool) :
    enable_autosave_plots fs pfx (some "") d cur
      = enable_autosave_plots fs pfx none d cur ∧
    save_dataframe_preview fs df nm n (some "") d w
      = save_dataframe_preview fs df nm n none d w := by
  constructor <;> rfl

/-- C10: a failed figure save does not consume a sequence index: it
leaves the directory listing unchanged, the failed call used index
`countPng dir`, and the next invocation of the wrapped show function
computes that same index. -/
theorem C10_failed_save_does_not_consume_index (ts ts' : String) (pfx : String)
    (f : List String → Kwargs → String) (dir : DirListing)
    (args args' : List String) (kw kw' : Kwargs) :
    (invoke ⟨ts, true, false⟩ (.wrap pfx (.base f)) dir args kw).dir = dir ∧
    (invoke ⟨ts, true, false⟩ (.wrap pfx (.base f)) dir args kw).events.head?
      = some (.warned (mkFilename (countPng dir) pfx
          (popKwarg kw "name_hint" "plot").1 ts)) ∧
    (invoke ⟨ts', true, true⟩ (.wrap pfx (.base f))
        (invoke ⟨ts, true, false⟩ (.wrap pfx (.base f)) dir args kw).dir
        args' kw').events.head?
      = some (.saved (mkFilename (countPng dir) pfx
          (popKwarg kw' "name_hint" "plot").1 ts')) :=
  ⟨rfl, rfl, rfl⟩

end NotebookUtils
